import Mathlib

/-!
Verification of `sphinxcontrib/sqltable.py` (the SQLTable Sphinx directive).

The single source file defines `SQLTable.run` and `SQLTable.build_table`.
We embed them shallowly: the docutils node tree becomes an inductive `Node`,
the external collaborators (sqlalchemy engine/connection, the current working
directory, and the database result set) become an explicit `World` record that
fixes the outcome of every external call, and a Python exception that escapes
`run` is modelled by the `Except.error` constructor of the result.  Events
observable on the database connection are collected in an explicit trace.
-/

namespace SqlTable

/-- A scalar cell value as delivered by the database driver: a Python object
that is either `None` (SQL NULL), an integer, or a string. -/
inductive SqlValue where
  | vNull
  | vInt (n : Int)
  | vStr (s : String)
  deriving Repr, DecidableEq

/-- Python `str()` applied to a scalar cell value, as in
`nodes.paragraph(text=str(cell))`: `str(None)` is the four-letter string
`"None"`, `str(42)` is `"42"`, a string is returned unchanged. -/
def pyStr : SqlValue → String
  | .vNull => "None"
  | .vInt n => toString n
  | .vStr s => s

/-- The docutils node tree, restricted to the node kinds the source builds:
error system-messages, tables (with their `classes` and `names` attributes),
tgroups, colspecs, theads, tbodies, rows, entries, paragraphs and titles. -/
inductive Node where
  | errorMarker (msg : String) (blockText : String) (line : Nat)
  | table (classes : List String) (names : List String) (children : List Node)
  | tgroup (cols : Nat) (children : List Node)
  | colspec (colwidth : Nat)
  | thead (children : List Node)
  | tbody (children : List Node)
  | row (children : List Node)
  | entry (children : List Node)
  | paragraph (text : String)
  | title (text : String)
  deriving Repr

/-- The author-supplied directive block: options (`widths`, `class`, `name`,
`connection_string`), the body lines (`self.content`), the directive
arguments (the optional title text), and the error-reporting metadata
(`self.block_text`, `self.lineno`).  An option left out of the block is
`none`; `connection_string` given with an empty value is `some ""`. -/
structure Invocation where
  content : List String
  connection_string_opt : Option String
  widths_opt : Option (List Nat)
  class_opt : List String
  name_opt : Option String
  arguments : List String
  block_text : String
  lineno : Nat
  deriving Repr, DecidableEq

/-- The process-wide Sphinx configuration: the registered
`sqltable_connection_string` value (default `""`). -/
structure Config where
  sqltable_connection_string : String
  deriving Repr, DecidableEq

/-- The behaviour of the external collaborators during one invocation:
whether `sqlalchemy.create_engine`, `engine.connect()` or `conn.execute`
raise (and with what message), the column names and rows the result set
delivers, and the current working directory.  A row is `Except.error msg`
when fetching it from the lazily-produced result raises an exception with
message `msg`. -/
structure World where
  createEngineFails : Option String
  connectFails : Option String
  executeFails : Option String
  headers : List String
  rows : List (Except String (List SqlValue))
  cwd : String
  deriving Repr

/-- Observable events on the logger and the database connection, in order. -/
inductive Event where
  | logConnect (cs : String)
  | createEngine (cs : String)
  | logQuery (q : String)
  | connect
  | execute (q : String)
  | release
  deriving Repr, DecidableEq

/-- `self.state_machine.reporter.error(msg, literal_block(block_text), line=lineno)`:
an error system-message carrying the raw block text and the line number. -/
def errorNode (msg : String) (inv : Invocation) : Node :=
  Node.errorMarker msg inv.block_text inv.lineno

/-- Modelled from the spec: the host (docutils `Table`) width computation,
"compute the effective column widths from the `widths` option (explicit
list) or auto-distribute if omitted, honoring the number of columns"; an
explicit list whose length differs from the column count raises
`SystemMessagePropagation` (modelled as `Except.error` carrying the message
of the propagated system message). -/
def get_column_widths (widths_opt : Option (List Nat)) (max_cols : Nat) :
    Except String (List Nat) :=
  match widths_opt with
  | some ws =>
      if ws.length = max_cols then Except.ok ws
      else Except.error "table widths do not match the number of columns in table"
  | none => Except.ok (List.replicate max_cols (100 / max_cols))

/-- Modelled from the spec: the host (docutils `Table`) title resolution,
"resolve an optional title block and any associated non-fatal messages":
the first directive argument, when present, becomes the title node. -/
def make_title (inv : Invocation) : Option Node × List Node :=
  match inv.arguments with
  | [] => (none, [])
  | t :: _ => (some (Node.title t), [])

/-- The body of the `for row in table_data` loop in `build_table`: fetch the
row from the lazily-produced result (which may raise) and wrap each cell as
an entry holding a paragraph of `str(cell)`. -/
def buildRow (r : Except String (List SqlValue)) : Except String Node := do
  let cells ← r
  pure (Node.row (cells.map (fun c => Node.entry [Node.paragraph (pyStr c)])))

/-- The `for row in table_data: ... rows.append(trow)` loop of `build_table`:
rows are converted in order, and the first exception raised while fetching a
row aborts the loop and propagates. -/
def buildRows : List (Except String (List SqlValue)) → Except String (List Node)
  | [] => Except.ok []
  | r :: rest => do
    let row ← buildRow r
    let rows ← buildRows rest
    pure (row :: rows)

/-- `SQLTable.build_table(self, table_data, col_widths, headers)`: one
colspec per width, a header row with one entry (wrapping a paragraph) per
column name, and one body row per result row with one entry (wrapping a
paragraph of `str(cell)`) per cell.  Iterating `table_data` is the only
operation in the method that can raise; the exception propagates, since the
method has no handler. -/
def build_table (table_data : List (Except String (List SqlValue)))
    (col_widths : List Nat) (headers : List String) : Except String Node := do
  let colspecs := col_widths.map (fun w => Node.colspec w)
  let headerRow := Node.row (headers.map (fun h => Node.entry [Node.paragraph h]))
  let bodyRows ← buildRows table_data
  pure (Node.table [] []
    [Node.tgroup col_widths.length
      (colspecs ++ [Node.thead [headerRow], Node.tbody bodyRows])])

/-- `table_node['classes'] += self.options.get('class', [])`. -/
def addClasses (n : Node) (extra : List String) : Node :=
  match n with
  | .table cls nms children => .table (cls ++ extra) nms children
  | _ => n

/-- `self.add_name(table_node)`: record the `name` option on the node. -/
def addName (n : Node) (name_opt : Option String) : Node :=
  match n with
  | .table cls nms children => .table cls (nms ++ name_opt.toList) children
  | _ => n

/-- `table_node.insert(0, title)`: the title becomes the first child. -/
def insertTitle (n : Node) (t : Node) : Node :=
  match n with
  | .table cls nms children => .table cls nms (t :: children)
  | _ => n

/-- `SQLTable.run(self)`, step by step from the source: content presence
check, connection-string resolution via `options.get` with the config value
as the `get` default, `create_engine` in its own `try`, then the query
`try` (`sqlalchemy.text` on the newline-joined body, `with engine.connect()`
around `conn.execute`), then `get_column_widths`/`make_title` guarded
against `SystemMessagePropagation` and other exceptions, and finally the
unguarded `build_table` call.  Returns the event trace together with either
the returned node list (`Except.ok`) or the message of an exception that
escapes the method (`Except.error`). -/
def run (inv : Invocation) (config : Config) (w : World) :
    List Event × Except String (List Node) :=
  if inv.content.isEmpty then
    ([], Except.ok [errorNode "No query in sqltable directive" inv])
  else
    let connection_string :=
      inv.connection_string_opt.getD config.sqltable_connection_string
    if connection_string = "" then
      ([], Except.ok [errorNode
        "No connection_string or sqltable_connection_string was specified for sqltable"
        inv])
    else
      match w.createEngineFails with
      | some err =>
        ([Event.logConnect connection_string, Event.createEngine connection_string],
         Except.ok [errorNode
           ("Could not connect to " ++ connection_string ++ " for sqltable when in "
             ++ w.cwd ++ ": " ++ err) inv])
      | none =>
        let query := String.intercalate "\n" inv.content
        let ev0 := [Event.logConnect connection_string,
                    Event.createEngine connection_string,
                    Event.logQuery query]
        match w.connectFails with
        | some err =>
          (ev0, Except.ok [errorNode
            ("Error with query " ++ query ++ " for sqltable: " ++ err) inv])
        | none =>
          let evs := ev0 ++ [Event.connect, Event.execute query, Event.release]
          match w.executeFails with
          | some err =>
            (evs, Except.ok [errorNode
              ("Error with query " ++ query ++ " for sqltable: " ++ err) inv])
          | none =>
            let table_headers := w.headers
            let max_cols := table_headers.length
            match get_column_widths inv.widths_opt max_cols with
            | Except.error msg => (evs, Except.ok [errorNode msg inv])
            | Except.ok col_widths =>
              let (title, messages) := make_title inv
              match build_table w.rows col_widths table_headers with
              | Except.error err => (evs, Except.error err)
              | Except.ok table0 =>
                let table1 := addName (addClasses table0 inv.class_opt) inv.name_opt
                let table2 := match title with
                  | some t => insertTitle table1 t
                  | none => table1
                (evs, Except.ok ([table2] ++ messages))

/-! ### Observers on the node tree and abbreviations used by the theorems -/

/-- The connection string the source resolves:
`self.options.get('connection_string', config.sqltable_connection_string)`. -/
def resolvedCS (inv : Invocation) (config : Config) : String :=
  inv.connection_string_opt.getD config.sqltable_connection_string

/-- The connection-string resolution as the SPEC words it (for comparison
with the source's `resolvedCS`): "take the per-block option if present and
non-empty; otherwise fall back to the process-wide configured default". -/
def specResolvedCS (opt : Option String) (dflt : String) : String :=
  match opt with
  | some s => if s ≠ "" then s else dflt
  | none => dflt

/-- The query string the source builds: `'\n'.join(self.content)`. -/
def joinedQuery (inv : Invocation) : String :=
  String.intercalate "\n" inv.content

def isTable : Node → Bool
  | .table _ _ _ => true
  | _ => false

def isErrorMarker : Node → Bool
  | .errorMarker _ _ _ => true
  | _ => false

def isTgroup : Node → Bool
  | .tgroup _ _ => true
  | _ => false

def isThead : Node → Bool
  | .thead _ => true
  | _ => false

def isTbody : Node → Bool
  | .tbody _ => true
  | _ => false

def tableChildren : Node → List Node
  | .table _ _ cs => cs
  | _ => []

/-- The children of the (first) tgroup of a table node. -/
def tgroupChildren (n : Node) : List Node :=
  match (tableChildren n).find? isTgroup with
  | some (.tgroup _ cs) => cs
  | _ => []

def colspecWidth : Node → Option Nat
  | .colspec w => some w
  | _ => none

/-- The column-spec width hints of a table node, in order. -/
def colspecWidths (n : Node) : List Nat :=
  (tgroupChildren n).filterMap colspecWidth

/-- The cells of the (single) header row of a table node. -/
def headerCells (n : Node) : Option (List Node) :=
  match (tgroupChildren n).find? isThead with
  | some (.thead [.row cells]) => some cells
  | _ => none

/-- The body rows of a table node. -/
def bodyRows (n : Node) : List Node :=
  match (tgroupChildren n).find? isTbody with
  | some (.tbody rs) => rs
  | _ => []

def rowCells : Node → List Node
  | .row cs => cs
  | _ => []

/-- The text of a body cell: an entry wrapping a single paragraph. -/
def cellText : Node → Option String
  | .entry [.paragraph t] => some t
  | _ => none

/-- The texts of the cells of one row. -/
def rowTexts (n : Node) : List String :=
  (rowCells n).filterMap cellText

/-- The body of a table as a grid of cell texts. -/
def bodyCellTexts (n : Node) : List (List String) :=
  (bodyRows n).map rowTexts

/-- The table node `build_table` returns, as a function of the widths, the
headers and the already-built body row nodes. -/
def builtTable (cw : List Nat) (hs : List String) (bodyNodes : List Node) : Node :=
  Node.table [] []
    [Node.tgroup cw.length
      (cw.map Node.colspec ++
        [Node.thead [Node.row (hs.map (fun h => Node.entry [Node.paragraph h]))],
         Node.tbody bodyNodes])]

/-- The table node `run` returns on the fully successful path: the built
table with classes and name attached and the title (when resolved) inserted
as first child. -/
def finalTable (inv : Invocation) (cw : List Nat) (hs : List String)
    (bodyNodes : List Node) : Node :=
  let table1 := addName (addClasses (builtTable cw hs bodyNodes) inv.class_opt) inv.name_opt
  match (make_title inv).1 with
  | some t => insertTitle table1 t
  | none => table1

/-! ### Concrete sample inputs used by witnesses and counterexamples -/

def sampleInv : Invocation :=
  { content := ["SELECT a, b", "FROM t"]
    connection_string_opt := some "sqlite:///db.sqlite"
    widths_opt := none
    class_opt := []
    name_opt := none
    arguments := []
    block_text := ".. sqltable::\n\n   SELECT a, b\n   FROM t"
    lineno := 7 }

def sampleConfig : Config := { sqltable_connection_string := "" }

def sampleWorld : World :=
  { createEngineFails := none
    connectFails := none
    executeFails := none
    headers := ["a", "b"]
    rows := [Except.ok [SqlValue.vInt 42, SqlValue.vNull],
             Except.ok [SqlValue.vStr "x", SqlValue.vInt (-3)]]
    cwd := "/docs" }

/-! ### Helper lemmas -/

theorem buildRow_ok (cells : List SqlValue) :
    buildRow (Except.ok cells)
      = Except.ok (Node.row (cells.map (fun c => Node.entry [Node.paragraph (pyStr c)]))) := rfl

theorem buildRows_map_ok (rows : List (List SqlValue)) :
    buildRows (rows.map (fun r => Except.ok r))
      = Except.ok (rows.map (fun cells =>
          Node.row (cells.map (fun c => Node.entry [Node.paragraph (pyStr c)])))) := by
  induction rows with
  | nil => rfl
  | cons r rs ih => simp [buildRows, buildRow_ok, ih, Bind.bind, Except.bind, Pure.pure, Except.pure]

theorem build_table_eq (td : List (Except String (List SqlValue)))
    (cw : List Nat) (hs : List String) :
    build_table td cw hs = (buildRows td).map (fun bn => builtTable cw hs bn) := by
  cases h : buildRows td <;> simp [build_table, h, builtTable, Except.map]

theorem get_column_widths_length (wo : Option (List Nat)) (n : Nat) (cw : List Nat)
    (h : get_column_widths wo n = Except.ok cw) : cw.length = n := by
  cases wo with
  | none =>
    simp [get_column_widths] at h
    simp [← h]
  | some ws =>
    simp only [get_column_widths] at h
    split at h
    · cases h
      omega
    · cases h

theorem get_column_widths_some (ws : List Nat) (n : Nat) (cw : List Nat)
    (h : get_column_widths (some ws) n = Except.ok cw) : cw = ws := by
  simp only [get_column_widths] at h
  split at h
  · cases h
    rfl
  · cases h

theorem make_title_snd (inv : Invocation) : (make_title inv).2 = [] := by
  cases h : inv.arguments <;> simp [make_title, h]

theorem isTable_finalTable (inv : Invocation) (cw : List Nat) (hs : List String)
    (bn : List Node) : isTable (finalTable inv cw hs bn) = true := by
  cases h : (make_title inv).1 <;>
    simp [finalTable, builtTable, addClasses, addName, insertTitle, isTable, h]

theorem tgroupChildren_finalTable (inv : Invocation) (cw : List Nat) (hs : List String)
    (bn : List Node) :
    tgroupChildren (finalTable inv cw hs bn)
      = cw.map Node.colspec ++
        [Node.thead [Node.row (hs.map (fun h => Node.entry [Node.paragraph h]))],
         Node.tbody bn] := by
  cases h : inv.arguments <;>
    simp [finalTable, make_title, h, builtTable, addClasses, addName, insertTitle,
          tgroupChildren, tableChildren, List.find?, isTgroup]

theorem filterMap_colspec (cw : List Nat) :
    cw.filterMap (colspecWidth ∘ Node.colspec) = cw := by
  induction cw <;> simp_all [colspecWidth]

theorem colspecWidths_finalTable (inv : Invocation) (cw : List Nat) (hs : List String)
    (bn : List Node) : colspecWidths (finalTable inv cw hs bn) = cw := by
  simp [colspecWidths, tgroupChildren_finalTable, List.filterMap_append, filterMap_colspec,
        colspecWidth]

theorem find?_isThead_colspec (cw : List Nat) :
    cw.find? (isThead ∘ Node.colspec) = none := by
  induction cw <;> simp_all [isThead]

theorem find?_isTbody_colspec (cw : List Nat) :
    cw.find? (isTbody ∘ Node.colspec) = none := by
  induction cw <;> simp_all [isTbody]

theorem headerCells_finalTable (inv : Invocation) (cw : List Nat) (hs : List String)
    (bn : List Node) :
    headerCells (finalTable inv cw hs bn)
      = some (hs.map (fun h => Node.entry [Node.paragraph h])) := by
  simp [headerCells, tgroupChildren_finalTable, find?_isThead_colspec, List.find?, isThead,
        isTbody]

theorem bodyRows_finalTable (inv : Invocation) (cw : List Nat) (hs : List String)
    (bn : List Node) : bodyRows (finalTable inv cw hs bn) = bn := by
  simp [bodyRows, tgroupChildren_finalTable, find?_isTbody_colspec, List.find?, isThead,
        isTbody]

theorem rowTexts_rowNode (cells : List SqlValue) :
    rowTexts (Node.row (cells.map (fun c => Node.entry [Node.paragraph (pyStr c)])))
      = cells.map pyStr := by
  induction cells <;> simp_all [rowTexts, rowCells, cellText]

/-- Case analysis on the event trace `run` can produce. -/
theorem run_fst_cases (inv : Invocation) (config : Config) (w : World) :
    (run inv config w).1 = [] ∨
    (run inv config w).1 =
      [Event.logConnect (resolvedCS inv config), Event.createEngine (resolvedCS inv config)] ∨
    (run inv config w).1 =
      [Event.logConnect (resolvedCS inv config), Event.createEngine (resolvedCS inv config),
       Event.logQuery (joinedQuery inv)] ∨
    (run inv config w).1 =
      [Event.logConnect (resolvedCS inv config), Event.createEngine (resolvedCS inv config),
       Event.logQuery (joinedQuery inv), Event.connect, Event.execute (joinedQuery inv),
       Event.release] := by
  simp only [run, resolvedCS, joinedQuery]
  repeat' split
  all_goals first
    | (left; rfl)
    | (right; left; rfl)
    | (right; right; left; rfl)
    | (right; right; right; rfl)

theorem run_empty_content (inv : Invocation) (config : Config) (w : World)
    (h : inv.content = []) :
    run inv config w = ([], Except.ok [errorNode "No query in sqltable directive" inv]) := by
  simp [run, h]

theorem run_missing_cs (inv : Invocation) (config : Config) (w : World)
    (hc : inv.content ≠ []) (h : resolvedCS inv config = "") :
    run inv config w =
      ([], Except.ok [errorNode
        "No connection_string or sqltable_connection_string was specified for sqltable" inv]) := by
  have hce : inv.content.isEmpty = false := by
    simp [List.isEmpty_iff]; exact hc
  rw [resolvedCS] at h
  simp [run, hce, h]

theorem run_engine_fail (inv : Invocation) (config : Config) (w : World) (err : String)
    (hc : inv.content ≠ []) (hcs : resolvedCS inv config ≠ "")
    (he : w.createEngineFails = some err) :
    run inv config w =
      ([Event.logConnect (resolvedCS inv config), Event.createEngine (resolvedCS inv config)],
       Except.ok [errorNode
         ("Could not connect to " ++ resolvedCS inv config ++ " for sqltable when in "
           ++ w.cwd ++ ": " ++ err) inv]) := by
  have hce : inv.content.isEmpty = false := by
    simp [List.isEmpty_iff]; exact hc
  rw [resolvedCS] at hcs
  simp [run, hce, if_neg hcs, he, resolvedCS]

theorem run_connect_fail (inv : Invocation) (config : Config) (w : World) (err : String)
    (hc : inv.content ≠ []) (hcs : resolvedCS inv config ≠ "")
    (he : w.createEngineFails = none) (hco : w.connectFails = some err) :
    run inv config w =
      ([Event.logConnect (resolvedCS inv config), Event.createEngine (resolvedCS inv config),
        Event.logQuery (joinedQuery inv)],
       Except.ok [errorNode
         ("Error with query " ++ joinedQuery inv ++ " for sqltable: " ++ err) inv]) := by
  have hce : inv.content.isEmpty = false := by
    simp [List.isEmpty_iff]; exact hc
  rw [resolvedCS] at hcs
  simp [run, hce, if_neg hcs, he, hco, resolvedCS, joinedQuery]

theorem run_execute_fail (inv : Invocation) (config : Config) (w : World) (err : String)
    (hc : inv.content ≠ []) (hcs : resolvedCS inv config ≠ "")
    (he : w.createEngineFails = none) (hco : w.connectFails = none)
    (hex : w.executeFails = some err) :
    run inv config w =
      ([Event.logConnect (resolvedCS inv config), Event.createEngine (resolvedCS inv config),
        Event.logQuery (joinedQuery inv), Event.connect, Event.execute (joinedQuery inv),
        Event.release],
       Except.ok [errorNode
         ("Error with query " ++ joinedQuery inv ++ " for sqltable: " ++ err) inv]) := by
  have hce : inv.content.isEmpty = false := by
    simp [List.isEmpty_iff]; exact hc
  rw [resolvedCS] at hcs
  simp [run, hce, if_neg hcs, he, hco, hex, resolvedCS, joinedQuery]

theorem run_widths_fail (inv : Invocation) (config : Config) (w : World) (msg : String)
    (hc : inv.content ≠ []) (hcs : resolvedCS inv config ≠ "")
    (he : w.createEngineFails = none) (hco : w.connectFails = none)
    (hex : w.executeFails = none)
    (hw : get_column_widths inv.widths_opt w.headers.length = Except.error msg) :
    run inv config w =
      ([Event.logConnect (resolvedCS inv config), Event.createEngine (resolvedCS inv config),
        Event.logQuery (joinedQuery inv), Event.connect, Event.execute (joinedQuery inv),
        Event.release],
       Except.ok [errorNode msg inv]) := by
  have hce : inv.content.isEmpty = false := by
    simp [List.isEmpty_iff]; exact hc
  rw [resolvedCS] at hcs
  simp [run, hce, if_neg hcs, he, hco, hex, hw, resolvedCS, joinedQuery]

theorem run_build_fail (inv : Invocation) (config : Config) (w : World)
    (cw : List Nat) (err : String)
    (hc : inv.content ≠ []) (hcs : resolvedCS inv config ≠ "")
    (he : w.createEngineFails = none) (hco : w.connectFails = none)
    (hex : w.executeFails = none)
    (hw : get_column_widths inv.widths_opt w.headers.length = Except.ok cw)
    (hb : buildRows w.rows = Except.error err) :
    run inv config w =
      ([Event.logConnect (resolvedCS inv config), Event.createEngine (resolvedCS inv config),
        Event.logQuery (joinedQuery inv), Event.connect, Event.execute (joinedQuery inv),
        Event.release],
       Except.error err) := by
  have hce : inv.content.isEmpty = false := by
    simp [List.isEmpty_iff]; exact hc
  rw [resolvedCS] at hcs
  simp [run, hce, if_neg hcs, he, hco, hex, hw, build_table_eq, hb, Except.map,
    resolvedCS, joinedQuery]



/-- Full description of `run` on the successful path. -/
theorem run_success (inv : Invocation) (config : Config) (w : World)
    (cw : List Nat) (bn : List Node)
    (hc : inv.content ≠ [])
    (hcs : resolvedCS inv config ≠ "")
    (he : w.createEngineFails = none) (hco : w.connectFails = none)
    (hex : w.executeFails = none)
    (hw : get_column_widths inv.widths_opt w.headers.length = Except.ok cw)
    (hb : buildRows w.rows = Except.ok bn) :
    run inv config w =
      ([Event.logConnect (resolvedCS inv config), Event.createEngine (resolvedCS inv config),
        Event.logQuery (joinedQuery inv), Event.connect, Event.execute (joinedQuery inv),
        Event.release],
       Except.ok [finalTable inv cw w.headers bn]) := by
  have hce : inv.content.isEmpty = false := by
    simp [List.isEmpty_iff]
    exact hc
  rw [resolvedCS] at hcs
  cases hmt : make_title inv with
  | mk titleOpt messages =>
    have hmsg : messages = [] := by
      have := make_title_snd inv
      rw [hmt] at this
      exact this
    simp only [run, hce, Bool.false_eq_true, if_false, if_neg hcs, he, hco, hex, hw, hmt,
      build_table_eq, hb, Except.map, resolvedCS, joinedQuery, hmsg]
    cases hto : titleOpt <;>
      simp [finalTable, hmt, hto, List.append_nil]



/-- Every result of `run` is an error-marker singleton, an exception escaping
from the table-building loop, or a successfully built table. -/
theorem run_outcomes (inv : Invocation) (config : Config) (w : World) :
    (∃ msg, (run inv config w).2 = Except.ok [errorNode msg inv]) ∨
    (∃ err, buildRows w.rows = Except.error err ∧
            (run inv config w).2 = Except.error err) ∨
    (∃ cw bn, get_column_widths inv.widths_opt w.headers.length = Except.ok cw ∧
              buildRows w.rows = Except.ok bn ∧
              (run inv config w).2 = Except.ok [finalTable inv cw w.headers bn]) := by
  by_cases hc : inv.content = []
  · exact Or.inl ⟨_, by rw [run_empty_content inv config w hc]⟩
  by_cases hcs : resolvedCS inv config = ""
  · exact Or.inl ⟨_, by rw [run_missing_cs inv config w hc hcs]⟩
  cases he : w.createEngineFails with
  | some err => exact Or.inl ⟨_, by rw [run_engine_fail inv config w err hc hcs he]⟩
  | none =>
  cases hco : w.connectFails with
  | some err => exact Or.inl ⟨_, by rw [run_connect_fail inv config w err hc hcs he hco]⟩
  | none =>
  cases hex : w.executeFails with
  | some err => exact Or.inl ⟨_, by rw [run_execute_fail inv config w err hc hcs he hco hex]⟩
  | none =>
  cases hw : get_column_widths inv.widths_opt w.headers.length with
  | error msg => exact Or.inl ⟨_, by rw [run_widths_fail inv config w msg hc hcs he hco hex hw]⟩
  | ok cw =>
  cases hb : buildRows w.rows with
  | error err =>
    exact Or.inr (Or.inl ⟨err, rfl,
      by rw [run_build_fail inv config w cw err hc hcs he hco hex hw hb]⟩)
  | ok bn =>
    exact Or.inr (Or.inr ⟨cw, bn, rfl, rfl,
      by rw [run_success inv config w cw bn hc hcs he hco hex hw hb]⟩)

theorem tgroupChildren_builtTable (cw : List Nat) (hs : List String) (bn : List Node) :
    tgroupChildren (builtTable cw hs bn)
      = cw.map Node.colspec ++
        [Node.thead [Node.row (hs.map (fun h => Node.entry [Node.paragraph h]))],
         Node.tbody bn] := by
  simp [builtTable, tgroupChildren, tableChildren, List.find?, isTgroup]

theorem bodyRows_builtTable (cw : List Nat) (hs : List String) (bn : List Node) :
    bodyRows (builtTable cw hs bn) = bn := by
  simp [bodyRows, tgroupChildren_builtTable, find?_isTbody_colspec, List.find?, isThead,
        isTbody]

theorem buildRows_mem (td : List (Except String (List SqlValue))) (bn : List Node)
    (h : buildRows td = Except.ok bn) :
    ∀ r ∈ bn, ∃ cells, Except.ok cells ∈ td ∧
      r = Node.row (cells.map (fun c => Node.entry [Node.paragraph (pyStr c)])) := by
  induction td generalizing bn with
  | nil =>
    simp [buildRows] at h
    subst h
    simp
  | cons x rest ih =>
    cases x with
    | error e =>
      simp [buildRows, buildRow, Bind.bind, Except.bind] at h
    | ok cells =>
      cases hrest : buildRows rest with
      | error e =>
        simp [buildRows, buildRow_ok, hrest, Bind.bind, Except.bind] at h
      | ok rs =>
        simp [buildRows, buildRow_ok, hrest, Bind.bind, Except.bind, Pure.pure,
              Except.pure] at h
        intro r hr
        subst h
        rcases List.mem_cons.mp hr with hr1 | hr2
        · exact ⟨cells, List.mem_cons_self _ _, hr1⟩
        · obtain ⟨cells2, hmem, heq⟩ := ih rs hrest r hr2
          exact ⟨cells2, List.mem_cons_of_mem _ hmem, heq⟩


/-! ### Claim theorems -/
/-- C6: for every invocation whose body text is empty, the result is exactly
one error marker with message "No query in sqltable directive", no table node
is produced, and no connection is opened (the event trace is empty). -/
theorem empty_body_yields_missing_query_error (inv : Invocation) (config : Config)
    (w : World) (h : inv.content = []) :
    run inv config w = ([], Except.ok [errorNode "No query in sqltable directive" inv]) ∧
    Event.connect ∉ (run inv config w).1 := by
  have heq := run_empty_content inv config w h
  refine ⟨heq, ?_⟩
  rw [heq]
  simp

/-- Witness for C6 at a concrete empty-bodied invocation. -/
theorem empty_body_yields_missing_query_error_witness :
    run { sampleInv with content := [] } sampleConfig sampleWorld
      = ([], Except.ok [errorNode "No query in sqltable directive"
          { sampleInv with content := [] }]) ∧
    Event.connect ∉ (run { sampleInv with content := [] } sampleConfig sampleWorld).1 :=
  empty_body_yields_missing_query_error { sampleInv with content := [] }
    sampleConfig sampleWorld rfl

/-- C7: every executed query string is exactly the body lines joined with
newline characters. -/
theorem executed_query_is_newline_joined_body (inv : Invocation) (config : Config)
    (w : World) (q : String) (h : Event.execute q ∈ (run inv config w).1) :
    q = String.intercalate "\n" inv.content := by
  rcases run_fst_cases inv config w with h1 | h1 | h1 | h1 <;> rw [h1] at h <;>
    simp_all [joinedQuery]

/-- Witness for C7 at a concrete invocation whose query executes. -/
theorem executed_query_is_newline_joined_body_witness :
    "SELECT a, b\nFROM t" = String.intercalate "\n" sampleInv.content :=
  executed_query_is_newline_joined_body sampleInv sampleConfig sampleWorld
    "SELECT a, b\nFROM t" (by decide)

/-- C5: whenever the connection is acquired, it is released before the
directive result is returned: the event trace ends with the release. -/
theorem connection_always_released (inv : Invocation) (config : Config) (w : World)
    (h : Event.connect ∈ (run inv config w).1) :
    ∃ pre, (run inv config w).1 = pre ++ [Event.release] := by
  rcases run_fst_cases inv config w with h1 | h1 | h1 | h1 <;> rw [h1] at h ⊢
  · simp at h
  · simp at h
  · simp at h
  · exact ⟨[Event.logConnect (resolvedCS inv config), Event.createEngine (resolvedCS inv config),
      Event.logQuery (joinedQuery inv), Event.connect, Event.execute (joinedQuery inv)], rfl⟩

/-- Witness for C5 at a concrete invocation that opens a connection. -/
theorem connection_always_released_witness :
    ∃ pre, (run sampleInv sampleConfig sampleWorld).1 = pre ++ [Event.release] :=
  connection_always_released sampleInv sampleConfig sampleWorld (by decide)

/-- Counterexample to C1: when fetching a row raises while the table is
being built from the result rows (the result set is lazily produced and the
connection was already closed by the `with` block), the exception escapes
`run` instead of being converted to an error marker. -/
theorem table_build_fault_escapes_run_cex :
    (run sampleInv sampleConfig
        { sampleWorld with rows := [Except.error "This result object is closed"] }).2
      = Except.error "This result object is closed" := by
  have h := run_build_fail sampleInv sampleConfig
    { sampleWorld with rows := [Except.error "This result object is closed"] }
    [50, 50] "This result object is closed" (by decide) (by decide) rfl rfl rfl rfl rfl
  rw [h]

/-- C1 (amended): `run` returns either a single table structure (possibly
with a title) or a single error marker carrying the block text and line
number, and converts every failure up to column-width/title resolution; only
a fault raised while building the table from the result rows (excluded here
by requiring every row fetch to succeed) can escape. -/
theorem run_returns_marker_or_table (inv : Invocation) (config : Config) (w : World)
    (rows : List (List SqlValue))
    (h : w.rows = rows.map (fun r => Except.ok r)) :
    ∃ ns, (run inv config w).2 = Except.ok ns ∧
      ((∃ msg, ns = [Node.errorMarker msg inv.block_text inv.lineno]) ∨
       (∃ t, isTable t = true ∧ ns = [t])) := by
  rcases run_outcomes inv config w with ⟨msg, hr⟩ | ⟨err, hb, hr⟩ | ⟨cw, bn, hw, hb, hr⟩
  · exact ⟨_, hr, Or.inl ⟨msg, rfl⟩⟩
  · rw [h, buildRows_map_ok] at hb
    cases hb
  · exact ⟨_, hr, Or.inr ⟨_, isTable_finalTable inv cw w.headers bn, rfl⟩⟩

/-- Witness for C1 (amended) at a concrete fully successful invocation. -/
theorem run_returns_marker_or_table_witness :
    ∃ ns, (run sampleInv sampleConfig sampleWorld).2 = Except.ok ns ∧
      ((∃ msg, ns = [Node.errorMarker msg sampleInv.block_text sampleInv.lineno]) ∨
       (∃ t, isTable t = true ∧ ns = [t])) :=
  run_returns_marker_or_table sampleInv sampleConfig sampleWorld
    [[SqlValue.vInt 42, SqlValue.vNull], [SqlValue.vStr "x", SqlValue.vInt (-3)]] rfl



/-- Counterexample to C3: a null cell is rendered as the paragraph text
"None" (Python `str(None)`), not as the empty string the claim requires. -/
theorem null_cell_renders_None_cex :
    (build_table [Except.ok [SqlValue.vNull]] [100] ["c"]).map bodyCellTexts
      = Except.ok [["None"]] ∧ "None" ≠ "" := by
  constructor
  · rfl
  · decide

/-- C3 (amended): every body cell is a paragraph whose text is the Python
`str()` of the scalar value — integer 42 becomes "42", a string is kept, and
null becomes "None" (not the empty string); no cell is omitted. -/
theorem body_cells_are_stringified (rows : List (List SqlValue)) (cw : List Nat)
    (hs : List String) :
    (build_table (rows.map (fun r => Except.ok r)) cw hs).map bodyCellTexts
      = Except.ok (rows.map (fun cells => cells.map pyStr)) ∧
    pyStr (SqlValue.vInt 42) = "42" ∧ pyStr SqlValue.vNull = "None" := by
  refine ⟨?_, rfl, rfl⟩
  rw [build_table_eq, buildRows_map_ok]
  simp [Except.map, bodyCellTexts, bodyRows_builtTable, List.map_map, Function.comp,
        rowTexts_rowNode]

/-- C4: any failure raised inside the query-execution `try` block (from
`engine.connect()` or `conn.execute`) is reported as exactly one error
marker whose message is "Error with query <query text> for sqltable:
<underlying message>", and no table node is produced. -/
theorem query_failure_yields_single_marker (inv : Invocation) (config : Config)
    (w : World) (err : String)
    (hc : inv.content ≠ []) (hcs : resolvedCS inv config ≠ "")
    (he : w.createEngineFails = none)
    (hf : w.connectFails = some err ∨ (w.connectFails = none ∧ w.executeFails = some err)) :
    (run inv config w).2
      = Except.ok [errorNode
          ("Error with query " ++ String.intercalate "\n" inv.content
            ++ " for sqltable: " ++ err) inv] := by
  rcases hf with hco | ⟨hco, hex⟩
  · rw [run_connect_fail inv config w err hc hcs he hco]
    simp [joinedQuery]
  · rw [run_execute_fail inv config w err hc hcs he hco hex]
    simp [joinedQuery]

/-- Witness for C4: a syntactically invalid query against a valid connection. -/
theorem query_failure_yields_single_marker_witness :
    (run sampleInv sampleConfig { sampleWorld with executeFails := some "syntax error" }).2
      = Except.ok [errorNode
          ("Error with query " ++ String.intercalate "\n" sampleInv.content
            ++ " for sqltable: " ++ "syntax error") sampleInv] :=
  query_failure_yields_single_marker sampleInv sampleConfig
    { sampleWorld with executeFails := some "syntax error" } "syntax error"
    (by decide) (by decide) rfl (Or.inr ⟨rfl, rfl⟩)




/-- Counterexample to C2: a block whose `connection_string` option is
present but empty, with a non-empty configured default.  Per the claim the
effective connection string is the default and no error is reported; the
code falls back only when the option is absent, so it reports the
MissingConnectionString error. -/
theorem empty_option_not_fallback_cex :
    specResolvedCS (some "") "postgresql://db" = "postgresql://db" ∧
    run { sampleInv with connection_string_opt := some "" }
        { sqltable_connection_string := "postgresql://db" } sampleWorld
      = ([], Except.ok [errorNode
          "No connection_string or sqltable_connection_string was specified for sqltable"
          { sampleInv with connection_string_opt := some "" }]) := by
  constructor
  · rfl
  · exact run_missing_cs { sampleInv with connection_string_opt := some "" }
      { sqltable_connection_string := "postgresql://db" } sampleWorld (by decide) rfl

/-- C2 (amended): the effective connection string is the per-block option
whenever the option is PRESENT (even when empty), and the configured default
only when the option is absent; the MissingConnectionString error is
reported if and only if the value so resolved is empty. -/
theorem connection_string_resolution (inv : Invocation) (config : Config) (w : World)
    (hc : inv.content ≠ []) :
    (∀ s, inv.connection_string_opt = some s → resolvedCS inv config = s) ∧
    (inv.connection_string_opt = none →
       resolvedCS inv config = config.sqltable_connection_string) ∧
    (resolvedCS inv config = "" →
       run inv config w = ([], Except.ok [errorNode
         "No connection_string or sqltable_connection_string was specified for sqltable"
         inv])) ∧
    (resolvedCS inv config ≠ "" →
       Event.createEngine (resolvedCS inv config) ∈ (run inv config w).1) := by
  refine ⟨?_, ?_, ?_, ?_⟩
  · intro s hs
    simp [resolvedCS, hs]
  · intro hn
    simp [resolvedCS, hn]
  · intro hz
    exact run_missing_cs inv config w hc hz
  · intro hnz
    cases he : w.createEngineFails with
    | some err =>
      rw [run_engine_fail inv config w err hc hnz he]
      simp
    | none =>
      cases hco : w.connectFails with
      | some err =>
        rw [run_connect_fail inv config w err hc hnz he hco]
        simp
      | none =>
        cases hex : w.executeFails with
        | some err =>
          rw [run_execute_fail inv config w err hc hnz he hco hex]
          simp
        | none =>
          cases hw : get_column_widths inv.widths_opt w.headers.length with
          | error msg =>
            rw [run_widths_fail inv config w msg hc hnz he hco hex hw]
            simp
          | ok cw =>
            cases hb : buildRows w.rows with
            | error err =>
              rw [run_build_fail inv config w cw err hc hnz he hco hex hw hb]
              simp
            | ok bn =>
              rw [run_success inv config w cw bn hc hnz he hco hex hw hb]
              simp

/-- Witness for C2 (amended) at a concrete invocation. -/
theorem connection_string_resolution_witness :
    (∀ s, sampleInv.connection_string_opt = some s →
       resolvedCS sampleInv sampleConfig = s) ∧
    (sampleInv.connection_string_opt = none →
       resolvedCS sampleInv sampleConfig = sampleConfig.sqltable_connection_string) ∧
    (resolvedCS sampleInv sampleConfig = "" →
       run sampleInv sampleConfig sampleWorld = ([], Except.ok [errorNode
         "No connection_string or sqltable_connection_string was specified for sqltable"
         sampleInv])) ∧
    (resolvedCS sampleInv sampleConfig ≠ "" →
       Event.createEngine (resolvedCS sampleInv sampleConfig)
         ∈ (run sampleInv sampleConfig sampleWorld).1) :=
  connection_string_resolution sampleInv sampleConfig sampleWorld (by decide)



/-- C8: in every successfully built table the number of column-spec width
hints equals the header length, every body row has that many cells (given
the database contract that each delivered row has one value per column), and
an explicit `widths` option maps 1:1 in order onto the width hints. -/
theorem table_shape_invariant (inv : Invocation) (config : Config) (w : World)
    (ns : List Node) (t : Node)
    (hwf : ∀ cells, (Except.ok cells : Except String (List SqlValue)) ∈ w.rows →
             cells.length = w.headers.length)
    (hr : (run inv config w).2 = Except.ok ns)
    (ht : t ∈ ns) (htab : isTable t = true) :
    (colspecWidths t).length = w.headers.length ∧
    (∃ hcells, headerCells t = some hcells ∧ hcells.length = w.headers.length) ∧
    (∀ r ∈ bodyRows t, (rowCells r).length = w.headers.length) ∧
    (∀ ws, inv.widths_opt = some ws → colspecWidths t = ws) := by
  rcases run_outcomes inv config w with ⟨msg, h2⟩ | ⟨err, hb, h2⟩ | ⟨cw, bn, hw, hb, h2⟩
  · rw [hr] at h2
    injection h2 with h3
    subst h3
    rw [List.mem_singleton] at ht
    subst ht
    simp [isTable, errorNode] at htab
  · rw [hr] at h2
    cases h2
  · rw [hr] at h2
    injection h2 with h3
    subst h3
    rw [List.mem_singleton] at ht
    subst ht
    refine ⟨?_, ?_, ?_, ?_⟩
    · rw [colspecWidths_finalTable]
      exact get_column_widths_length inv.widths_opt w.headers.length cw hw
    · exact ⟨_, headerCells_finalTable inv cw w.headers bn, by simp⟩
    · intro r hrr
      rw [bodyRows_finalTable] at hrr
      obtain ⟨cells, hmem, hreq⟩ := buildRows_mem w.rows bn hb r hrr
      subst hreq
      simp [rowCells]
      exact hwf cells hmem
    · intro ws hws
      rw [colspecWidths_finalTable]
      exact get_column_widths_some ws w.headers.length cw (by rw [← hws]; exact hw)

/-- Witness for C8 at a concrete successful invocation with a widths option. -/
theorem table_shape_invariant_witness :
    (colspecWidths (finalTable { sampleInv with widths_opt := some [30, 70] } [30, 70]
        ["a", "b"]
        [Node.row [Node.entry [Node.paragraph "42"], Node.entry [Node.paragraph "None"]],
         Node.row [Node.entry [Node.paragraph "x"], Node.entry [Node.paragraph "-3"]]])).length
      = sampleWorld.headers.length ∧
    (∃ hcells, headerCells (finalTable { sampleInv with widths_opt := some [30, 70] } [30, 70]
        ["a", "b"]
        [Node.row [Node.entry [Node.paragraph "42"], Node.entry [Node.paragraph "None"]],
         Node.row [Node.entry [Node.paragraph "x"], Node.entry [Node.paragraph "-3"]]])
        = some hcells ∧ hcells.length = sampleWorld.headers.length) ∧
    (∀ r ∈ bodyRows (finalTable { sampleInv with widths_opt := some [30, 70] } [30, 70]
        ["a", "b"]
        [Node.row [Node.entry [Node.paragraph "42"], Node.entry [Node.paragraph "None"]],
         Node.row [Node.entry [Node.paragraph "x"], Node.entry [Node.paragraph "-3"]]]),
       (rowCells r).length = sampleWorld.headers.length) ∧
    (∀ ws, ({ sampleInv with widths_opt := some [30, 70] } : Invocation).widths_opt = some ws →
       colspecWidths (finalTable { sampleInv with widths_opt := some [30, 70] } [30, 70]
        ["a", "b"]
        [Node.row [Node.entry [Node.paragraph "42"], Node.entry [Node.paragraph "None"]],
         Node.row [Node.entry [Node.paragraph "x"], Node.entry [Node.paragraph "-3"]]]) = ws) :=
  table_shape_invariant { sampleInv with widths_opt := some [30, 70] } sampleConfig
    sampleWorld
    [finalTable { sampleInv with widths_opt := some [30, 70] } [30, 70] ["a", "b"]
      [Node.row [Node.entry [Node.paragraph "42"], Node.entry [Node.paragraph "None"]],
       Node.row [Node.entry [Node.paragraph "x"], Node.entry [Node.paragraph "-3"]]]]
    (finalTable { sampleInv with widths_opt := some [30, 70] } [30, 70] ["a", "b"]
      [Node.row [Node.entry [Node.paragraph "42"], Node.entry [Node.paragraph "None"]],
       Node.row [Node.entry [Node.paragraph "x"], Node.entry [Node.paragraph "-3"]]])
    (by intro cells hmem
        simp [sampleWorld] at hmem
        rcases hmem with h | h <;> subst h <;> rfl)
    (by rw [run_success { sampleInv with widths_opt := some [30, 70] } sampleConfig
          sampleWorld [30, 70]
          [Node.row [Node.entry [Node.paragraph "42"], Node.entry [Node.paragraph "None"]],
           Node.row [Node.entry [Node.paragraph "x"], Node.entry [Node.paragraph "-3"]]]
          (by decide) (by decide) rfl rfl rfl rfl rfl]
        rfl)
    (List.mem_singleton.mpr rfl)
    (isTable_finalTable _ _ _ _)



/-- C9: a query returning zero rows (and a column set compatible with the
`widths` option) against a valid connection yields a table node with a
header row and zero body rows, not an error marker. -/
theorem zero_rows_yield_empty_table (inv : Invocation) (config : Config) (w : World)
    (hc : inv.content ≠ []) (hcs : resolvedCS inv config ≠ "")
    (he : w.createEngineFails = none) (hco : w.connectFails = none)
    (hex : w.executeFails = none)
    (hrows : w.rows = [])
    (hwdt : inv.widths_opt = none ∨
            ∃ ws, inv.widths_opt = some ws ∧ ws.length = w.headers.length) :
    ∃ t, (run inv config w).2 = Except.ok [t] ∧ isTable t = true ∧
      bodyRows t = [] ∧
      ∃ hcells, headerCells t = some hcells ∧ hcells.length = w.headers.length := by
  have hb : buildRows w.rows = Except.ok [] := by
    rw [hrows]
    rfl
  obtain ⟨cw, hw⟩ : ∃ cw, get_column_widths inv.widths_opt w.headers.length = Except.ok cw := by
    rcases hwdt with hn | ⟨ws, hsome, hlen⟩
    · exact ⟨List.replicate w.headers.length (100 / w.headers.length),
        by simp [get_column_widths, hn]⟩
    · exact ⟨ws, by simp [get_column_widths, hsome, hlen]⟩
  rw [run_success inv config w cw [] hc hcs he hco hex hw hb]
  exact ⟨_, rfl, isTable_finalTable inv cw w.headers [],
    bodyRows_finalTable inv cw w.headers [],
    _, headerCells_finalTable inv cw w.headers [], by simp⟩

/-- Witness for C9 at a concrete zero-row result. -/
theorem zero_rows_yield_empty_table_witness :
    ∃ t, (run sampleInv sampleConfig { sampleWorld with rows := [] }).2
        = Except.ok [t] ∧ isTable t = true ∧
      bodyRows t = [] ∧
      ∃ hcells, headerCells t = some hcells ∧
        hcells.length = ({ sampleWorld with rows := [] } : World).headers.length :=
  zero_rows_yield_empty_table sampleInv sampleConfig { sampleWorld with rows := [] }
    (by decide) (by decide) rfl rfl rfl rfl (Or.inl rfl)

/-- Counterexample to C10: on a successful invocation with a resolved title,
the returned list consists of exactly one node, that node is the table, and
the title is its first child — no title node precedes the table node in the
returned list. -/
theorem title_not_before_table_cex :
    (run { sampleInv with arguments := ["Latest"] } sampleConfig sampleWorld).2.map
        (fun ns => (ns.length, ns.map isTable, ns.head?.map (fun t => (tableChildren t).head?)))
      = Except.ok (1, [true], some (some (Node.title "Latest"))) := by
  rw [run_success { sampleInv with arguments := ["Latest"] } sampleConfig sampleWorld
    [50, 50]
    [Node.row [Node.entry [Node.paragraph "42"], Node.entry [Node.paragraph "None"]],
     Node.row [Node.entry [Node.paragraph "x"], Node.entry [Node.paragraph "-3"]]]
    (by decide) (by decide) rfl rfl rfl rfl rfl]
  rfl

/-- C10 (amended): when a title is resolved, the title node is inserted as
the first child of the returned table node (preceding the table's content);
the directive returns the table node alone, with the title inside it. -/
theorem title_is_first_child_of_table (inv : Invocation) (config : Config) (w : World)
    (a : String) (rest : List String) (cw : List Nat) (bn : List Node)
    (hc : inv.content ≠ []) (hcs : resolvedCS inv config ≠ "")
    (he : w.createEngineFails = none) (hco : w.connectFails = none)
    (hex : w.executeFails = none)
    (hw : get_column_widths inv.widths_opt w.headers.length = Except.ok cw)
    (hb : buildRows w.rows = Except.ok bn)
    (harg : inv.arguments = a :: rest) :
    ∃ t, (run inv config w).2 = Except.ok [t] ∧ isTable t = true ∧
      (tableChildren t).head? = some (Node.title a) := by
  rw [run_success inv config w cw bn hc hcs he hco hex hw hb]
  refine ⟨_, rfl, isTable_finalTable inv cw w.headers bn, ?_⟩
  simp [finalTable, make_title, harg, insertTitle, addName, addClasses, builtTable,
        tableChildren]

/-- Witness for C10 (amended) at a concrete titled invocation. -/
theorem title_is_first_child_of_table_witness :
    ∃ t, (run { sampleInv with arguments := ["Latest"] } sampleConfig sampleWorld).2
        = Except.ok [t] ∧ isTable t = true ∧
      (tableChildren t).head? = some (Node.title "Latest") :=
  title_is_first_child_of_table { sampleInv with arguments := ["Latest"] } sampleConfig
    sampleWorld "Latest" [] [50, 50]
    [Node.row [Node.entry [Node.paragraph "42"], Node.entry [Node.paragraph "None"]],
     Node.row [Node.entry [Node.paragraph "x"], Node.entry [Node.paragraph "-3"]]]
    (by decide) (by decide) rfl rfl rfl rfl rfl rfl

end SqlTable
